import Mathlib

/-!
Shallow embedding of the RLS VS Code extension supervisor
(src/extension.ts) and proofs about its behaviour: the diagnostics
activity aggregator, the process launcher, the stderr output router,
the log sink and the deglob command bridge.
-/

namespace RlsVscode

/-! ### Diagnostics activity aggregator (`diagnosticCounter`)

The source keeps a single mutable integer `runningDiagnostics`,
initially 0.  On a `rustDocument/diagnosticsBegin` notification it
increments the counter and calls `startSpinner("RLS analysis: working")`
unconditionally; on `rustDocument/diagnosticsEnd` it decrements the
counter and calls `stopSpinner("RLS analysis: done")` when the
decremented counter is `<= 0`.  The counter is a plain integer and may
go negative. -/

/-- A notification consumed by the aggregator: `rustDocument/diagnosticsBegin`
or `rustDocument/diagnosticsEnd`. -/
inductive DiagEvent where
  | diagnosticsBegin
  | diagnosticsEnd
deriving DecidableEq

/-- A call to the spinner module: `startSpinner msg` or `stopSpinner msg`. -/
inductive SpinnerAction where
  | start (msg : String)
  | stop (msg : String)
deriving DecidableEq

/-- One notification handled by `diagnosticCounter`: given the current
value of `runningDiagnostics`, returns the new counter value and the
spinner calls made while handling the notification. -/
def diagStep (c : Int) : DiagEvent → Int × List SpinnerAction
  | DiagEvent.diagnosticsBegin =>
      (c + 1, [SpinnerAction.start "RLS analysis: working"])
  | DiagEvent.diagnosticsEnd =>
      if c - 1 ≤ 0 then
        (c - 1, [SpinnerAction.stop "RLS analysis: done"])
      else
        (c - 1, [])

/-- Handling a finite sequence of notifications in order, each one
atomically: threads the counter through `diagStep` and concatenates the
spinner calls. -/
def runDiag (c : Int) : List DiagEvent → Int × List SpinnerAction
  | [] => (c, [])
  | e :: es =>
      let step := diagStep c e
      let rest := runDiag step.1 es
      (rest.1, step.2 ++ rest.2)

/-- Modelled from the spec: the spinner module (`./spinner`, not part of
the supervisor source) shows the Busy status on `startSpinner` and the
Idle status on `stopSpinner`; the visible status is the effect of the
last spinner call, initially Idle. -/
def spinnerBusy (actions : List SpinnerAction) : Bool :=
  actions.foldl
    (fun _ a => match a with
      | SpinnerAction.start _ => true
      | SpinnerAction.stop _ => false)
    false

/-- The visible status after the aggregator has processed a prefix of
notifications, starting from counter 0 and Idle. -/
def diagBusyAfter (p : List DiagEvent) : Bool :=
  spinnerBusy (runDiag 0 p).2

/-- The running count of begins minus ends with decrements floored at 0,
as the claim words it (natural-number subtraction is exactly the floored
decrement). -/
def flooredCount (es : List DiagEvent) : Nat :=
  es.foldl
    (fun n e => match e with
      | DiagEvent.diagnosticsBegin => n + 1
      | DiagEvent.diagnosticsEnd => n - 1)
    0

/-- The raw running count of begins minus ends, unfloored. -/
def rawCount (es : List DiagEvent) : Int :=
  es.foldl
    (fun n e => match e with
      | DiagEvent.diagnosticsBegin => n + 1
      | DiagEvent.diagnosticsEnd => n - 1)
    (0 : Int)

/-- Whether the last notification of the prefix is a begin. -/
def lastIsBegin (p : List DiagEvent) : Bool :=
  match p.getLast? with
  | some DiagEvent.diagnosticsBegin => true
  | _ => false

/-- Claim C1 as stated: after every prefix, the visible status is Busy
iff the floored running count is strictly positive. -/
def claimC1 : Prop :=
  ∀ p : List DiagEvent, diagBusyAfter p = decide (0 < flooredCount p)

/-- Claim C2 as stated: the start-spinner call happens exactly when the
increment transitions the counter from 0 to positive, and the
stop-spinner call happens exactly when the decremented counter is ≤ 0. -/
def claimC2 : Prop :=
  (∀ c : Int,
    SpinnerAction.start "RLS analysis: working" ∈ (diagStep c DiagEvent.diagnosticsBegin).2
      ↔ c = 0) ∧
  (∀ c : Int,
    SpinnerAction.stop "RLS analysis: done" ∈ (diagStep c DiagEvent.diagnosticsEnd).2
      ↔ c - 1 ≤ 0)

/-! ### Process locator and launcher (`makeRlsProcess`)

The source reads `process.env.RLS_PATH` and `process.env.RLS_ROOT` and
chooses one launch path with JavaScript truthiness tests:
`if (rls_path) ... else if (rls_root) ... else runRlsViaRustup()`. -/

/-- The launch path chosen by `makeRlsProcess`: spawn the binary at a
path, spawn `cargo run --release` with a working directory, or delegate
to `runRlsViaRustup()`. -/
inductive LaunchChoice where
  | spawnBinary (path : String)
  | spawnCargoRun (cwd : String)
  | runViaRustup
deriving DecidableEq

/-- JavaScript truthiness of an environment variable: `undefined` and
the empty string are falsy. -/
def truthy : Option String → Bool
  | none => false
  | some s => s ≠ ""

/-- The environment variables read by `makeRlsProcess`. -/
structure ProcessEnv where
  RLS_PATH : Option String
  RLS_ROOT : Option String
deriving DecidableEq

/-- The strategy selection at the top of `makeRlsProcess`. -/
def chooseLaunch (env : ProcessEnv) : LaunchChoice :=
  if truthy env.RLS_PATH then
    LaunchChoice.spawnBinary (env.RLS_PATH.getD "")
  else if truthy env.RLS_ROOT then
    LaunchChoice.spawnCargoRun (env.RLS_ROOT.getD "")
  else
    LaunchChoice.runViaRustup

/-- Claim C5 as stated: a set binary-path variable is spawned directly,
a set project-root variable (with the path variable unset) triggers the
build-and-run command, and toolchain resolution runs exactly when both
variables are absent. -/
def claimC5 : Prop :=
  ∀ env : ProcessEnv,
    (∀ p, env.RLS_PATH = some p → chooseLaunch env = LaunchChoice.spawnBinary p) ∧
    (∀ r, env.RLS_PATH = none → env.RLS_ROOT = some r →
      chooseLaunch env = LaunchChoice.spawnCargoRun r) ∧
    (chooseLaunch env = LaunchChoice.runViaRustup ↔
      env.RLS_PATH = none ∧ env.RLS_ROOT = none)

/-- An error object delivered to the child process error listener, with
its `code` and `message` fields. -/
structure ProcessError where
  code : String
  message : String
deriving DecidableEq

/-- A user-visible side effect of the supervisor. -/
inductive UiAction where
  | consoleError (msg : String)
  | warningMessage (msg : String)
  | statusBarMessage (msg : String)
deriving DecidableEq

/-- The `childProcess.on('error', ...)` listener installed by
`makeRlsProcess`: an `ENOENT` error is degraded to a console log plus a
warning message, any other error is re-raised out of the handler. -/
def onChildProcessError (err : ProcessError) : Except ProcessError (List UiAction) :=
  if err.code = "ENOENT" then
    Except.ok
      [UiAction.consoleError ("Could not spawn RLS process: " ++ err.message),
       UiAction.warningMessage "Could not start RLS"]
  else
    Except.error err

/-- A spawned child process handle together with the error event, if
any, that the event loop will later deliver to its error listener. -/
structure ChildProcess where
  spawnedPath : String
  errorEvent : Option ProcessError
deriving DecidableEq

/-- Node's `child_process.spawn` on a plain binary path (an external
collaborator): it always returns a process handle, and when the binary
does not exist it emits an `ENOENT` error event asynchronously instead
of throwing. -/
def spawnChild (fileExists : String → Bool) (path : String) : ChildProcess :=
  { spawnedPath := path,
    errorEvent :=
      if fileExists path then none
      else some { code := "ENOENT", message := "spawn " ++ path ++ " ENOENT" } }

/-- The outcome of one `makeRlsProcess` invocation: whether the returned
promise resolved to the caller (the final `.catch` keeps it from ever
rejecting), which error, if any, was re-raised out of the process error
listener, and the user-visible actions performed. -/
structure LaunchOutcome where
  resolved : Bool
  raised : Option ProcessError
  uiActions : List UiAction
deriving DecidableEq

/-- The explicit-binary-path branch of `makeRlsProcess` run to
quiescence: spawn the binary, deliver the pending error event (if any)
to the installed error listener, and resolve. -/
def makeRlsProcessExplicit (fileExists : String → Bool) (path : String) : LaunchOutcome :=
  let child := spawnChild fileExists path
  match child.errorEvent with
  | none => { resolved := true, raised := none, uiActions := [] }
  | some err =>
    match onChildProcessError err with
    | Except.ok acts => { resolved := true, raised := none, uiActions := acts }
    | Except.error e => { resolved := true, raised := some e, uiActions := [] }

/-! ### Output router: stderr to the output channel and the log file -/

/-- The `RevealOutputChannelOn` setting of the vscode-languageclient
library (an external collaborator). -/
inductive RevealOutputChannelOn where
  | info
  | warn
  | error
  | never
deriving DecidableEq

/-- Numeric values of the vscode-languageclient enum, used by the
source's comparison `revealOutputChannelOn <= RevealOutputChannelOn.Info`. -/
def RevealOutputChannelOn.level : RevealOutputChannelOn → Nat
  | RevealOutputChannelOn.info => 1
  | RevealOutputChannelOn.warn => 2
  | RevealOutputChannelOn.error => 3
  | RevealOutputChannelOn.never => 4

/-- The configuration snapshot read once at startup (`CONFIGURATION`,
loaded by `RLSConfiguration.loadFromWorkspace`). -/
structure RLSConfiguration where
  logToFile : Bool
  showStderrInOutputChannel : Bool
  revealOutputChannelOn : RevealOutputChannelOn
deriving DecidableEq

/-- An operation performed on the shared output channel. -/
inductive ChannelAction where
  | append (text : String)
  | showChannel (preserveFocus : Bool)
deriving DecidableEq

/-- The stderr `data` listener guarded by
`CONFIGURATION.showStderrInOutputChannel`: when the listener is attached
and the shared `lcOutputChannel` handle is non-null, the chunk (decoded
to text) is appended, and the channel is shown with `show(true)` when
the configured reveal threshold is at or below Info; a null handle
drops the chunk. -/
def stderrChannelActions (cfg : RLSConfiguration) (lcOutputChannelSet : Bool)
    (chunk : String) : List ChannelAction :=
  if cfg.showStderrInOutputChannel then
    if lcOutputChannelSet then
      ChannelAction.append chunk ::
        (if cfg.revealOutputChannelOn.level ≤ RevealOutputChannelOn.info.level then
          [ChannelAction.showChannel true]
        else
          [])
    else
      []
  else
    []

/-- A sequence of stderr chunks, each tagged with whether the shared
output channel handle was already assigned when the chunk arrived, and
the channel operations they produce. -/
def routeStderr (cfg : RLSConfiguration) : List (Bool × String) → List ChannelAction
  | [] => []
  | (h, c) :: rest => stderrChannelActions cfg h c ++ routeStderr cfg rest

/-- Decimal string of a natural number, modelling the JavaScript
number-to-string coercion applied to `Date.now()` in
`workspace.rootPath + '/rls' + Date.now() + '.log'`. -/
def natToDecimalString (n : Nat) : String :=
  if n = 0 then "0"
  else String.mk (((Nat.digits 10 n).map Nat.digitChar).reverse)

/-- The log file path built by `makeRlsProcess` when
`CONFIGURATION.logToFile` is set, from the workspace root and the
current timestamp in milliseconds. -/
def logFilePath (rootPath : String) (now : Nat) : String :=
  rootPath ++ "/rls" ++ natToDecimalString now ++ ".log"

/-- An event observed by the log sink and the stderr listeners. -/
inductive LogEvent where
  | opened
  | streamError (err : String)
  | data (chunk : String) (lcOutputChannelSet : Bool)
deriving DecidableEq

/-- The state of the output router for one session: whether the log
stream's `open` event already attached the stderr-to-log listener,
whether the log stream was ended, the chunks written to the log file,
the console error log, and the output channel operations. -/
structure RouterState where
  logListenerAttached : Bool
  logEnded : Bool
  logWrites : List String
  consoleErrors : List String
  channelActions : List ChannelAction
deriving DecidableEq

/-- One event handled by the output router (the `logToFile` block and
the `showStderrInOutputChannel` block of `makeRlsProcess`): the `open`
event attaches the stderr-to-log listener; a stream `error` event logs
to the console and ends the stream; a stderr `data` chunk is written to
the log (when the listener is attached and the stream is not ended) and
independently forwarded to the output channel listener. -/
def routerStep (cfg : RLSConfiguration) (logPath : String) (st : RouterState) :
    LogEvent → RouterState
  | LogEvent.opened => { st with logListenerAttached := true }
  | LogEvent.streamError err =>
      { st with
        logEnded := true,
        consoleErrors :=
          st.consoleErrors ++
            ["Couldn't write to " ++ logPath ++ " (" ++ err ++ ")"] }
  | LogEvent.data chunk lcSet =>
      { st with
        logWrites :=
          st.logWrites ++
            (if cfg.logToFile && st.logListenerAttached && !st.logEnded then [chunk]
            else []),
        channelActions :=
          st.channelActions ++ stderrChannelActions cfg lcSet chunk }

/-! ### Command bridge (`registerCommands`) -/

/-- The outcome of the `rustWorkspace/deglob` request sent by the
`rls.deglob` command handler. -/
inductive RequestOutcome where
  | resolved
  | rejected (reason : String)
deriving DecidableEq

/-- The continuation attached to the deglob request: the success branch
does nothing, the failure branch shows one warning message built from
the rejection reason. -/
def deglobResponseActions : RequestOutcome → List UiAction
  | RequestOutcome.resolved => []
  | RequestOutcome.rejected reason =>
      [UiAction.warningMessage ("deglob command failed: " ++ reason)]

/-- Number of warning messages among a list of user-visible actions. -/
def warningCount (acts : List UiAction) : Nat :=
  (acts.filter
    (fun a => match a with
      | UiAction.warningMessage _ => true
      | _ => false)).length

lemma runDiag_snoc (c : Int) (es : List DiagEvent) (e : DiagEvent) :
    runDiag c (es ++ [e]) =
      ((diagStep (runDiag c es).1 e).1,
       (runDiag c es).2 ++ (diagStep (runDiag c es).1 e).2) := by
  induction es generalizing c with
  | nil => simp [runDiag]
  | cons e' es ih => simp [runDiag, ih, List.append_assoc]

lemma spinnerBusy_append (as bs : List SpinnerAction) :
    spinnerBusy (as ++ bs) =
      bs.foldl
        (fun _ a => match a with
          | SpinnerAction.start _ => true
          | SpinnerAction.stop _ => false)
        (spinnerBusy as) := by
  simp [spinnerBusy, List.foldl_append]

lemma rawCount_snoc (es : List DiagEvent) (e : DiagEvent) :
    rawCount (es ++ [e]) =
      match e with
      | DiagEvent.diagnosticsBegin => rawCount es + 1
      | DiagEvent.diagnosticsEnd => rawCount es - 1 := by
  cases e <;> simp [rawCount, List.foldl_append]

lemma lastIsBegin_snoc (es : List DiagEvent) (e : DiagEvent) :
    lastIsBegin (es ++ [e]) =
      match e with
      | DiagEvent.diagnosticsBegin => true
      | DiagEvent.diagnosticsEnd => false := by
  cases e <;> simp [lastIsBegin]

/-- Invariant characterising the aggregator after any prefix: the
counter equals the raw (unfloored) running count, and the visible status
is Busy iff the raw count is positive or the last notification was a
begin. -/
lemma runDiag_characterisation (p : List DiagEvent) :
    (runDiag 0 p).1 = rawCount p ∧
      diagBusyAfter p = (decide (0 < rawCount p) || lastIsBegin p) := by
  induction p using List.reverseRecOn with
  | nil => constructor <;> rfl
  | append_singleton es e ih =>
      obtain ⟨ihc, ihb⟩ := ih
      cases e with
      | diagnosticsBegin =>
          refine ⟨?_, ?_⟩
          · rw [runDiag_snoc, ihc, rawCount_snoc]; rfl
          · rw [diagBusyAfter, runDiag_snoc, spinnerBusy_append,
              lastIsBegin_snoc]
            simp [diagStep]
      | diagnosticsEnd =>
          have hc : (runDiag 0 es).1 = rawCount es := ihc
          by_cases h : rawCount es - 1 ≤ 0
          · refine ⟨?_, ?_⟩
            · rw [runDiag_snoc, hc, rawCount_snoc]
              simp [diagStep, h]
            · rw [diagBusyAfter, runDiag_snoc, spinnerBusy_append,
                lastIsBegin_snoc]
              rw [hc]
              simp [diagStep, h, rawCount_snoc]
              omega
          · refine ⟨?_, ?_⟩
            · rw [runDiag_snoc, hc, rawCount_snoc]
              simp [diagStep, h]
            · rw [diagBusyAfter, runDiag_snoc, spinnerBusy_append,
                lastIsBegin_snoc]
              rw [hc]
              have hb : diagBusyAfter es = true := by
                rw [ihb]
                have : (0 : Int) < rawCount es := by omega
                simp [this]
              simp [diagStep, h, rawCount_snoc]
              have h1 : (1 : Int) < rawCount es := by omega
              rw [show spinnerBusy (runDiag 0 es).2 = diagBusyAfter es from rfl, hb]
              simp [h1]

/-- Claim C1 counterexample: after the sequence end, begin, begin, end
the floored running count is 1 (so the claim predicts Busy), but the
aggregator's last spinner call was `stopSpinner` (the raw counter went
negative on the unmatched end, so the final end decrements 1 to 0 and
stops the spinner): the code shows Idle. -/
theorem diagBusy_flooredCount_refuted : ¬ claimC1 := by
  intro h
  have hx :=
    h [DiagEvent.diagnosticsEnd, DiagEvent.diagnosticsBegin,
       DiagEvent.diagnosticsBegin, DiagEvent.diagnosticsEnd]
  exact absurd hx (by decide)

/-- Claim C1 amended: after every prefix of begin/end notifications, the
counter equals the raw (unfloored, possibly negative) running count of
begins minus ends, and the visible status is Busy iff that raw count is
strictly positive or the last notification was a begin. -/
theorem diagBusy_iff_rawCount_or_lastBegin (p : List DiagEvent) :
    (runDiag 0 p).1 = rawCount p ∧
      diagBusyAfter p = (decide (0 < rawCount p) || lastIsBegin p) :=
  runDiag_characterisation p

/-- Claim C2 counterexample: with the counter already at 1, a begin
notification still makes the `startSpinner("RLS analysis: working")`
call, although the increment does not transition the counter from 0. -/
theorem diagStep_start_refuted : ¬ claimC2 := by
  intro h
  have hx := (h.1 1).mp (by decide)
  exact absurd hx (by decide)

/-- Claim C2 amended: the start-spinner call with the working message is
made on every begin notification, unconditionally; the stop-spinner call
with the done message is made exactly when the decremented counter is at
most 0, and otherwise an end notification makes no spinner call. -/
theorem diagStep_spinner_calls (c : Int) :
    (diagStep c DiagEvent.diagnosticsBegin).2 =
      [SpinnerAction.start "RLS analysis: working"] ∧
    ((diagStep c DiagEvent.diagnosticsEnd).2 =
      [SpinnerAction.stop "RLS analysis: done"] ↔ c - 1 ≤ 0) ∧
    ((diagStep c DiagEvent.diagnosticsEnd).2 = [] ↔ ¬ c - 1 ≤ 0) := by
  by_cases h : c - 1 ≤ 0 <;> simp [diagStep, h]

/-- Witness for the amended C2 theorem at counter value 5: the end
notification makes no spinner call because the decremented counter 4 is
positive. -/
theorem diagStep_spinner_calls_witness :
    (diagStep 5 DiagEvent.diagnosticsEnd).2 = [] :=
  (diagStep_spinner_calls 5).2.2.mpr (by decide)

/-- Claim C3: on the explicit-binary-path branch, when the binary does
not exist the launch still resolves (nothing is thrown or rejected to
the caller), no error is re-raised, and the user sees the
"Could not start RLS" warning. -/
theorem makeRlsProcessExplicit_missing_binary
    (fileExists : String → Bool) (path : String)
    (h : fileExists path = false) :
    (makeRlsProcessExplicit fileExists path).resolved = true ∧
    (makeRlsProcessExplicit fileExists path).raised = none ∧
    UiAction.warningMessage "Could not start RLS" ∈
      (makeRlsProcessExplicit fileExists path).uiActions := by
  simp [makeRlsProcessExplicit, spawnChild, h, onChildProcessError]

/-- Witness for the C3 theorem on an empty file system and the path
"/nonexistent". -/
theorem makeRlsProcessExplicit_missing_binary_witness :
    (makeRlsProcessExplicit (fun _ => false) "/nonexistent").resolved = true ∧
    (makeRlsProcessExplicit (fun _ => false) "/nonexistent").raised = none ∧
    UiAction.warningMessage "Could not start RLS" ∈
      (makeRlsProcessExplicit (fun _ => false) "/nonexistent").uiActions :=
  makeRlsProcessExplicit_missing_binary (fun _ => false) "/nonexistent" rfl

/-- Claim C4: the process error listener degrades the error to a console
log plus a user-visible warning exactly when the error code is ENOENT,
and re-raises every other error unchanged. -/
theorem onChildProcessError_enoent_iff (err : ProcessError) :
    (err.code = "ENOENT" →
      onChildProcessError err =
        Except.ok
          [UiAction.consoleError ("Could not spawn RLS process: " ++ err.message),
           UiAction.warningMessage "Could not start RLS"]) ∧
    (err.code ≠ "ENOENT" → onChildProcessError err = Except.error err) := by
  constructor <;> intro h <;> simp [onChildProcessError, h]

/-- Witness for the C4 theorem: an ENOENT error becomes a warning, an
EACCES error is re-raised. -/
theorem onChildProcessError_enoent_iff_witness :
    onChildProcessError ⟨"ENOENT", "spawn /nonexistent ENOENT"⟩ =
      Except.ok
        [UiAction.consoleError
          ("Could not spawn RLS process: " ++ "spawn /nonexistent ENOENT"),
         UiAction.warningMessage "Could not start RLS"] ∧
    onChildProcessError ⟨"EACCES", "permission denied"⟩ =
      Except.error ⟨"EACCES", "permission denied"⟩ :=
  ⟨(onChildProcessError_enoent_iff ⟨"ENOENT", "spawn /nonexistent ENOENT"⟩).1 rfl,
   (onChildProcessError_enoent_iff ⟨"EACCES", "permission denied"⟩).2 (by decide)⟩

/-- Claim C5 counterexample: with the binary-path variable set to the
empty string (set, but falsy in JavaScript) and the root variable unset,
the launcher falls through to toolchain resolution instead of spawning
the configured binary. -/
theorem chooseLaunch_empty_path_refuted : ¬ claimC5 := by
  intro h
  have hx := (h ⟨some "", none⟩).1 "" rfl
  exact absurd hx (by decide)

/-- Claim C5 amended: the launcher spawns the binary directly when the
binary-path variable is set to a non-empty string; it spawns the
build-and-run command when the binary-path variable is unset or empty
and the root variable is set to a non-empty string; and it invokes
toolchain resolution exactly when both variables are unset or empty. -/
theorem chooseLaunch_characterisation (env : ProcessEnv) :
    (∀ p, env.RLS_PATH = some p → p ≠ "" →
      chooseLaunch env = LaunchChoice.spawnBinary p) ∧
    (∀ r, truthy env.RLS_PATH = false → env.RLS_ROOT = some r → r ≠ "" →
      chooseLaunch env = LaunchChoice.spawnCargoRun r) ∧
    (chooseLaunch env = LaunchChoice.runViaRustup ↔
      truthy env.RLS_PATH = false ∧ truthy env.RLS_ROOT = false) := by
  refine ⟨?_, ?_, ?_⟩
  · intro p hp hne
    simp [chooseLaunch, truthy, hp, hne]
  · intro r hpath hr hne
    simp only [chooseLaunch, hpath]
    simp [truthy, hr, hne]
  · constructor
    · intro hch
      by_cases h1 : truthy env.RLS_PATH
      · simp [chooseLaunch, h1] at hch
      · by_cases h2 : truthy env.RLS_ROOT
        · simp [chooseLaunch, h1, h2] at hch
        · exact ⟨by simpa using h1, by simpa using h2⟩
    · rintro ⟨h1, h2⟩
      simp [chooseLaunch, h1, h2]

/-- Witness for the amended C5 theorem: a non-empty binary path wins
even when the root variable is also set, and two unset variables give
toolchain resolution. -/
theorem chooseLaunch_characterisation_witness :
    chooseLaunch ⟨some "/usr/local/bin/rls", some "/proj"⟩ =
      LaunchChoice.spawnBinary "/usr/local/bin/rls" ∧
    chooseLaunch ⟨none, none⟩ = LaunchChoice.runViaRustup :=
  ⟨(chooseLaunch_characterisation ⟨some "/usr/local/bin/rls", some "/proj"⟩).1
      "/usr/local/bin/rls" rfl (by decide),
   (chooseLaunch_characterisation ⟨none, none⟩).2.2.mpr ⟨rfl, rfl⟩⟩

/-- Claim C6: with show-stderr enabled and the channel handle set, every
chunk is appended; the channel is shown, always with preserve-focus,
exactly when the configured reveal threshold is at or below Info; in
particular threshold Info appends and reveals, threshold Error only
appends. -/
theorem stderrChannel_append_and_reveal (cfg : RLSConfiguration) (chunk : String)
    (h : cfg.showStderrInOutputChannel = true) :
    ChannelAction.append chunk ∈ stderrChannelActions cfg true chunk ∧
    (ChannelAction.showChannel true ∈ stderrChannelActions cfg true chunk ↔
      cfg.revealOutputChannelOn.level ≤ RevealOutputChannelOn.info.level) ∧
    (∀ b, ChannelAction.showChannel b ∈ stderrChannelActions cfg true chunk →
      b = true) ∧
    (cfg.revealOutputChannelOn = RevealOutputChannelOn.info →
      stderrChannelActions cfg true chunk =
        [ChannelAction.append chunk, ChannelAction.showChannel true]) ∧
    (cfg.revealOutputChannelOn = RevealOutputChannelOn.error →
      stderrChannelActions cfg true chunk = [ChannelAction.append chunk]) := by
  by_cases hr : cfg.revealOutputChannelOn.level ≤ RevealOutputChannelOn.info.level
  · refine ⟨?_, ?_, ?_, ?_, ?_⟩
    · simp [stderrChannelActions, h, hr]
    · simp [stderrChannelActions, h, hr]
    · intro b hb
      simp [stderrChannelActions, h, hr] at hb
      exact hb
    · intro hi
      simp [stderrChannelActions, h, hr]
    · intro he
      rw [he] at hr
      exact absurd hr (by decide)
  · refine ⟨?_, ?_, ?_, ?_, ?_⟩
    · simp [stderrChannelActions, h, hr]
    · simp [stderrChannelActions, h, hr]
    · intro b hb
      simp [stderrChannelActions, h, hr] at hb
    · intro hi
      rw [hi] at hr
      exact absurd hr (by decide)
    · intro he
      simp [stderrChannelActions, h, hr]

/-- Witness for the C6 theorem: with threshold Info the chunk is
appended and the channel revealed with preserve-focus; with threshold
Error the chunk is only appended. -/
theorem stderrChannel_append_and_reveal_witness :
    stderrChannelActions ⟨false, true, RevealOutputChannelOn.info⟩ true "err" =
      [ChannelAction.append "err", ChannelAction.showChannel true] ∧
    stderrChannelActions ⟨false, true, RevealOutputChannelOn.error⟩ true "err" =
      [ChannelAction.append "err"] :=
  ⟨(stderrChannel_append_and_reveal ⟨false, true, RevealOutputChannelOn.info⟩
      "err" rfl).2.2.2.1 rfl,
   (stderrChannel_append_and_reveal ⟨false, true, RevealOutputChannelOn.error⟩
      "err" rfl).2.2.2.2 rfl⟩

/-- Claim C8: a rejected deglob request produces exactly one warning
message, every warning produced ends with the rejection reason, and a
resolved request produces no action; both branches are total, so no
exception escapes the handler. -/
theorem deglob_failure_single_warning (reason : String) :
    warningCount (deglobResponseActions (RequestOutcome.rejected reason)) = 1 ∧
    (∀ m, UiAction.warningMessage m ∈
        deglobResponseActions (RequestOutcome.rejected reason) →
      ∃ t, m = t ++ reason) ∧
    deglobResponseActions RequestOutcome.resolved = [] := by
  refine ⟨rfl, ?_, rfl⟩
  intro m hm
  simp [deglobResponseActions] at hm
  exact ⟨"deglob command failed: ", by rw [hm]⟩

/-- Witness for the C8 theorem at the rejection reason "timeout": one
warning whose text ends with the literal substring "timeout". -/
theorem deglob_failure_single_warning_witness :
    warningCount (deglobResponseActions (RequestOutcome.rejected "timeout")) = 1 ∧
    ∃ t, "deglob command failed: timeout" = t ++ "timeout" :=
  ⟨(deglob_failure_single_warning "timeout").1,
   (deglob_failure_single_warning "timeout").2.1 "deglob command failed: timeout"
     (by simp [deglobResponseActions])⟩

/-- Claim C9: a log stream error event ends the log sink, appends the
failure to the diagnostic console, makes no output channel operation,
and a stderr chunk arriving afterwards is still forwarded to the output
channel listener while no longer being written to the log. -/
theorem logStreamError_nonfatal (cfg : RLSConfiguration) (logPath : String)
    (st : RouterState) (err chunk : String) :
    (routerStep cfg logPath st (LogEvent.streamError err)).logEnded = true ∧
    (routerStep cfg logPath st (LogEvent.streamError err)).consoleErrors =
      st.consoleErrors ++ ["Couldn't write to " ++ logPath ++ " (" ++ err ++ ")"] ∧
    (routerStep cfg logPath st (LogEvent.streamError err)).channelActions =
      st.channelActions ∧
    (routerStep cfg logPath
        (routerStep cfg logPath st (LogEvent.streamError err))
        (LogEvent.data chunk true)).channelActions =
      st.channelActions ++ stderrChannelActions cfg true chunk ∧
    (routerStep cfg logPath
        (routerStep cfg logPath st (LogEvent.streamError err))
        (LogEvent.data chunk true)).logWrites = st.logWrites := by
  refine ⟨rfl, rfl, rfl, rfl, ?_⟩
  simp [routerStep]

/-- Claim C10: a stderr chunk arriving while the shared output channel
handle is still null is dropped without any channel operation, and a
chunk arriving after the handle is assigned is appended as usual. -/
theorem stderr_null_channel_dropped (cfg : RLSConfiguration) (c1 c2 : String) :
    stderrChannelActions cfg false c1 = [] ∧
    (cfg.showStderrInOutputChannel = true →
      routeStderr cfg [(false, c1), (true, c2)] =
        stderrChannelActions cfg true c2 ∧
      ChannelAction.append c2 ∈ stderrChannelActions cfg true c2) := by
  refine ⟨?_, ?_⟩
  · simp [stderrChannelActions]
  · intro h
    refine ⟨?_, ?_⟩
    · simp [routeStderr, stderrChannelActions]
    · simp [stderrChannelActions, h]

/-- Witness for the C10 theorem: with show-stderr enabled and threshold
Never, the chunk arriving before the handle is assigned produces
nothing, and the chunk arriving after it is appended. -/
theorem stderr_null_channel_dropped_witness :
    stderrChannelActions ⟨false, true, RevealOutputChannelOn.never⟩ false "a" = [] ∧
    ChannelAction.append "b" ∈
      stderrChannelActions ⟨false, true, RevealOutputChannelOn.never⟩ true "b" :=
  ⟨(stderr_null_channel_dropped ⟨false, true, RevealOutputChannelOn.never⟩ "a" "b").1,
   ((stderr_null_channel_dropped ⟨false, true, RevealOutputChannelOn.never⟩ "a" "b").2
      rfl).2⟩

lemma digitChar_inj_of_lt (a b : Nat) (ha : a < 10) (hb : b < 10)
    (h : Nat.digitChar a = Nat.digitChar b) : a = b := by
  have key : ∀ x y : Fin 10, Nat.digitChar x.val = Nat.digitChar y.val → x = y := by
    decide
  exact congrArg Fin.val (key ⟨a, ha⟩ ⟨b, hb⟩ h)

lemma map_digitChar_inj : ∀ l1 l2 : List Nat, (∀ d ∈ l1, d < 10) →
    (∀ d ∈ l2, d < 10) → l1.map Nat.digitChar = l2.map Nat.digitChar → l1 = l2 := by
  intro l1
  induction l1 with
  | nil =>
      intro l2 _ _ h
      cases l2 with
      | nil => rfl
      | cons d' l' => simp at h
  | cons d l ih =>
      intro l2 h1 h2 h
      cases l2 with
      | nil => simp at h
      | cons d' l' =>
          simp only [List.map_cons, List.cons.injEq] at h
          have hd : d = d' :=
            digitChar_inj_of_lt d d' (h1 d (by simp)) (h2 d' (by simp)) h.1
          have ht : l = l' :=
            ih l' (fun x hx => h1 x (by simp [hx])) (fun x hx => h2 x (by simp [hx]))
              h.2
          rw [hd, ht]

lemma natToDecimalString_ne_zero_str (n : Nat) (hn : n ≠ 0) :
    natToDecimalString n ≠ "0" := by
  intro h
  rw [natToDecimalString, if_neg hn] at h
  have hd : ((Nat.digits 10 n).map Nat.digitChar).reverse = ['0'] :=
    congrArg String.data h
  have h2 : (Nat.digits 10 n).map Nat.digitChar = ['0'] := by
    have := congrArg List.reverse hd
    simpa using this
  cases hdig : Nat.digits 10 n with
  | nil => rw [hdig] at h2; simp at h2
  | cons d ds =>
      rw [hdig] at h2
      simp only [List.map_cons, List.cons.injEq] at h2
      have hds : ds = [] := List.map_eq_nil_iff.mp h2.2
      have hdlt : d < 10 :=
        Nat.digits_lt_base (by norm_num) (hdig ▸ List.mem_cons_self d ds)
      have hd0 : d = 0 :=
        digitChar_inj_of_lt d 0 hdlt (by norm_num) (by rw [h2.1]; rfl)
      have hofd := Nat.ofDigits_digits 10 n
      rw [hdig, hds, hd0] at hofd
      simp [Nat.ofDigits] at hofd
      exact hn hofd.symm

lemma natToDecimalString_inj (m n : Nat)
    (h : natToDecimalString m = natToDecimalString n) : m = n := by
  by_cases hm : m = 0 <;> by_cases hn : n = 0
  · rw [hm, hn]
  · exfalso
    apply natToDecimalString_ne_zero_str n hn
    rw [← h, hm]
    rfl
  · exfalso
    apply natToDecimalString_ne_zero_str m hm
    rw [h, hn]
    rfl
  · rw [natToDecimalString, if_neg hm, natToDecimalString, if_neg hn] at h
    have hd : ((Nat.digits 10 m).map Nat.digitChar).reverse =
        ((Nat.digits 10 n).map Nat.digitChar).reverse :=
      congrArg String.data h
    have hrev := congrArg List.reverse hd
    simp only [List.reverse_reverse] at hrev
    have hmap := map_digitChar_inj _ _
      (fun d hdm => Nat.digits_lt_base (by norm_num) hdm)
      (fun d hdn => Nat.digits_lt_base (by norm_num) hdn) hrev
    exact Nat.digits_inj_iff.mp hmap

/-- Claim C7: the log file path is derived from the workspace root and
the session-start timestamp, so two session starts with distinct
timestamps open two distinct files and the later session never touches
the earlier session's log file. -/
theorem logFilePath_distinct (rootPath : String) (t1 t2 : Nat) (h : t1 ≠ t2) :
    logFilePath rootPath t1 ≠ logFilePath rootPath t2 := by
  intro heq
  apply h
  apply natToDecimalString_inj
  have hd := congrArg String.data heq
  simp only [logFilePath, String.data_append, List.append_assoc] at hd
  have h1 := List.append_cancel_left hd
  have h2 := List.append_cancel_left h1
  have h3 := List.append_cancel_right h2
  exact String.ext h3

/-- Witness for the C7 theorem: two session starts one millisecond apart
open two distinct log files under the same workspace root. -/
theorem logFilePath_distinct_witness :
    logFilePath "/workspace" 1500000000000 ≠ logFilePath "/workspace" 1500000000001 :=
  logFilePath_distinct "/workspace" 1500000000000 1500000000001 (by decide)

end RlsVscode
